import Mathlib

/-!  Verification of the Engineering Calculation & Comparison Core
     (unit conversion, beam deflection solver, property normalizer)
     against its natural-language specification.  Definitions are shallow
     embeddings of the TypeScript source; floating-point numbers are
     modelled by exact arithmetic (ℚ for the computable parts, ℝ where
     `Math.sqrt` is involved).  -/

namespace Units

/-- A `(factor, precision)` entry of a unit table: `displayValue = siValue / factor`,
`precision` the maximum number of decimal digits shown. -/
structure UnitInfo where
  factor : ℚ
  precision : ℕ
deriving DecidableEq, Repr

/-- The three quantity classes of the unit-conversion layer. -/
inductive UnitType
  | density
  | modulus
  | strength
deriving DecidableEq, Repr

/-- Looks a unit name up in a `(name, info)` table (JS object property access). -/
def lookupUnit (table : List (String × UnitInfo)) (u : String) : Option UnitInfo :=
  (table.find? (fun p => p.1 == u)).map Prod.snd

namespace MaterialsTable

/-- Embeds `densityUnits` of the materials table client page:
`kg/m³ ↦ 1`, `g/cm³ ↦ 0.001`, `lb/ft³ ↦ 0.0160185` (exact rationals). -/
def densityUnits : List (String × UnitInfo) :=
  [("kg/m³", ⟨1, 0⟩), ("g/cm³", ⟨1/1000, 3⟩), ("lb/ft³", ⟨160185/10000000, 3⟩)]

/-- Embeds `modulusUnits` of the materials table client page. -/
def modulusUnits : List (String × UnitInfo) :=
  [("GPa", ⟨1000000000, 5⟩), ("MPa", ⟨1000000, 2⟩),
   ("ksi", ⟨6894760, 3⟩), ("psi", ⟨689476/100, 0⟩)]

/-- Embeds `strengthUnits` of the materials table client page. -/
def strengthUnits : List (String × UnitInfo) :=
  [("GPa", ⟨1000000000, 5⟩), ("MPa", ⟨1000000, 2⟩),
   ("ksi", ⟨6894760, 3⟩), ("psi", ⟨689476/100, 0⟩)]

/-- The `conversionFactors` record of the materials table's `convertValue`. -/
def unitTable : UnitType → List (String × UnitInfo)
  | .density => densityUnits
  | .modulus => modulusUnits
  | .strength => strengthUnits

/-- Embeds the numeric core of the materials table's `convertValue`:
`null` input yields the `N/A` sentinel (modelled `none`); otherwise the
displayed number is `siValue / unitInfo.factor` for the selected unit
(the final `toLocaleString` formatting is abstracted away; an unregistered
unit name, a JS runtime error, is modelled `none`). -/
def convertValue (value : Option ℚ) (unitType : UnitType) (selectedUnit : String) :
    Option ℚ :=
  match value with
  | none => none
  | some siValue =>
      (lookupUnit (unitTable unitType) selectedUnit).map (fun u => siValue / u.factor)

end MaterialsTable

namespace ComparePage

/-- Embeds `densityUnits` of the compare client page:
`kg/m³ ↦ 1`, `g/cm³ ↦ 1000`, `lb/ft³ ↦ 16.0185`. -/
def densityUnits : List (String × UnitInfo) :=
  [("kg/m³", ⟨1, 0⟩), ("g/cm³", ⟨1000, 3⟩), ("lb/ft³", ⟨160185/10000, 3⟩)]

/-- Embeds `modulusUnits` of the compare client page. -/
def modulusUnits : List (String × UnitInfo) :=
  [("GPa", ⟨1000000000, 5⟩), ("MPa", ⟨1000000, 2⟩),
   ("ksi", ⟨6894760, 3⟩), ("psi", ⟨689476/100, 0⟩)]

/-- Embeds `strengthUnits` of the compare client page (listed MPa first there). -/
def strengthUnits : List (String × UnitInfo) :=
  [("MPa", ⟨1000000, 2⟩), ("ksi", ⟨6894760, 3⟩),
   ("psi", ⟨689476/100, 0⟩), ("GPa", ⟨1000000000, 5⟩)]

/-- The `conversionFactors` record of the compare page's conversion helpers. -/
def unitTable : UnitType → List (String × UnitInfo)
  | .density => densityUnits
  | .modulus => modulusUnits
  | .strength => strengthUnits

/-- Embeds the compare page's `calculateConvertedValue`: `null` maps to `null`,
otherwise `value / unitInfo.factor` for the selected unit. -/
def calculateConvertedValue (value : Option ℚ) (unitType : UnitType)
    (selectedUnit : String) : Option ℚ :=
  match value with
  | none => none
  | some v =>
      (lookupUnit (unitTable unitType) selectedUnit).map (fun u => v / u.factor)

end ComparePage

/-- The canonical factor table of spec §4.1, written from the spec's words
(for comparison with the code paths above): density `kg/m³ ↦ 1`,
`g/cm³ ↦ 1000`, `lb/ft³ ↦ 16.0185`; modulus and strength `GPa ↦ 1e9`,
`MPa ↦ 1e6`, `ksi ↦ 6.89476e6`, `psi ↦ 6894.76`. -/
def specCanonicalFactor : UnitType → String → Option ℚ
  | .density, "kg/m³" => some 1
  | .density, "g/cm³" => some 1000
  | .density, "lb/ft³" => some (160185/10000)
  | .modulus, "GPa" => some 1000000000
  | .modulus, "MPa" => some 1000000
  | .modulus, "ksi" => some 6894760
  | .modulus, "psi" => some (689476/100)
  | .strength, "GPa" => some 1000000000
  | .strength, "MPa" => some 1000000
  | .strength, "ksi" => some 6894760
  | .strength, "psi" => some (689476/100)
  | _, _ => none

end Units

namespace Seed

/-- Embeds `calculateShearModulus` of the seed script: `null` when either
input is `null` or when `poissonsRatio ≤ −1`, otherwise `E / (2·(1+ν))`. -/
def calculateShearModulus (ym pr : Option ℚ) : Option ℚ :=
  match ym, pr with
  | some e, some v => if v ≤ -1 then none else some (e / (2 * (1 + v)))
  | _, _ => none

/-- Embeds the `mat.shearModulus ?? calculatedShearModulus` precedence of
`createMaterialPayload`: an independently supplied shear modulus wins over
the computed one. -/
def finalShearModulus (supplied calculated : Option ℚ) : Option ℚ :=
  match supplied with
  | some g => some g
  | none => calculated

end Seed

namespace Beam

/-- The left-segment deflection formula of `calculateSimpleBeamPointLoadDeflection`
(`x ≤ a`), with `b = L − a` inlined: `(P·b·x)/(6·E·I·L)·(L² − b² − x²)`. -/
noncomputable def deflectionFormulaLeft (L P E I a x : ℝ) : ℝ :=
  (P * (L - a) * x) / (6 * E * I * L) * (L * L - (L - a) * (L - a) - x * x)

/-- The right-segment deflection formula of `calculateSimpleBeamPointLoadDeflection`
(`x > a`): `(P·a·(L−x))/(6·E·I·L)·(L² − a² − (L−x)²)`. -/
noncomputable def deflectionFormulaRight (L P E I a x : ℝ) : ℝ :=
  (P * a * (L - x)) / (6 * E * I * L) * (L * L - a * a - (L - x) * (L - x))

/-- Embeds `calculateSimpleBeamPointLoadDeflection`: returns `0` when
`E`, `I` or `L` is zero; returns `0` (after a console log, which has no
caller-visible effect) when `a` or `x` is out of `[0, L]`; otherwise picks
the segment formula by `x ≤ a`. -/
noncomputable def calculateSimpleBeamPointLoadDeflection (L P E I a x : ℝ) : ℝ :=
  if E = 0 ∨ I = 0 ∨ L = 0 then 0
  else if a < 0 ∨ a > L then 0
  else if x < 0 ∨ x > L then 0
  else if x ≤ a then deflectionFormulaLeft L P E I a x
  else deflectionFormulaRight L P E I a x

/-- The `{ maxDeflection, location }` result object of
`calculateSimpleBeamMaxDeflection`. -/
structure MaxDeflectionResult where
  maxDeflection : ℝ
  location : ℝ

/-- Embeds `calculateSimpleBeamMaxDeflection`: `{0, L/2}` when `E`, `I`, `L`
or `P` is zero; `null` (modelled `none`) when `a ≤ 0` or `a ≥ L`; otherwise
the maximum's location `x*` from the zero-slope formula of the appropriate
segment and the deflection evaluated there. -/
noncomputable def calculateSimpleBeamMaxDeflection (L P E I a : ℝ) :
    Option MaxDeflectionResult :=
  if E = 0 ∨ I = 0 ∨ L = 0 ∨ P = 0 then some ⟨0, L / 2⟩
  else if a ≤ 0 ∨ a ≥ L then none
  else
    let b := L - a
    let x_max := if a ≤ b then Real.sqrt ((L * L - b * b) / 3)
                 else L - Real.sqrt ((L * L - a * a) / 3)
    some ⟨calculateSimpleBeamPointLoadDeflection L P E I a x_max, x_max⟩

/-- Embeds the deprecated `calculateBeamDeflection`: delegates to the
point-load solver with `a = L/2`, `x = L/2`. -/
noncomputable def calculateBeamDeflection (length load youngsModulus inertia : ℝ) : ℝ :=
  calculateSimpleBeamPointLoadDeflection length load youngsModulus inertia
    (length / 2) (length / 2)

end Beam

namespace Normalizer

/-- The material shape consumed by the radar chart (raw optional SI values). -/
structure Material where
  name : String
  density : Option ℚ
  youngsModulus : Option ℚ
  yieldStrength : Option ℚ
  ultimateTensileStrength : Option ℚ
  shearModulus : Option ℚ
  thermalExpansionCoefficient : Option ℚ

/-- A material after the radar chart's pre-processing pass, which may add the
two derived axes. -/
structure ProcessedMaterial extends Material where
  specificStrength : Option ℚ
  specificModulus : Option ℚ

/-- Embeds the `processedMaterials` pass of `ComparisonRadarChart`: clones the
material and sets `specificStrength = (yield/density)/1000` and
`specificModulus = (E/density)/1e6` only when both constituents are present
and density is nonzero. -/
def processMaterial (mat : Material) : ProcessedMaterial where
  toMaterial := mat
  specificStrength :=
    match mat.yieldStrength, mat.density with
    | some ys, some d => if d = 0 then none else some (ys / d / 1000)
    | _, _ => none
  specificModulus :=
    match mat.youngsModulus, mat.density with
    | some e, some d => if d = 0 then none else some (e / d / 1000000)
    | _, _ => none

/-- The closed set of radar axis keys (`radarProperties` of the source). -/
inductive AxisKey
  | youngsModulus
  | ultimateTensileStrength
  | yieldStrength
  | density
  | specificModulus
  | specificStrength
  | thermalExpansionCoefficient
deriving DecidableEq, Repr

/-- The per-axis value extraction `mat[key]` of the source. -/
def axisValue : AxisKey → ProcessedMaterial → Option ℚ
  | .youngsModulus, m => m.youngsModulus
  | .ultimateTensileStrength, m => m.ultimateTensileStrength
  | .yieldStrength, m => m.yieldStrength
  | .density, m => m.density
  | .specificModulus, m => m.specificModulus
  | .specificStrength, m => m.specificStrength
  | .thermalExpansionCoefficient, m => m.thermalExpansionCoefficient

/-- The `higherIsBetter` flag of each `radarProperties` entry: density and
thermal expansion are "lower is better", the rest "higher is better". -/
def axisHigherIsBetter : AxisKey → Bool
  | .density => false
  | .thermalExpansionCoefficient => false
  | _ => true

/-- The axis order of `radarProperties` in the source. -/
def radarProperties : List AxisKey :=
  [.youngsModulus, .ultimateTensileStrength, .yieldStrength, .density,
   .specificModulus, .specificStrength, .thermalExpansionCoefficient]

/-- The defined (non-`null`) values of an axis across a material list: the
`values` array of the extremum pass. -/
def definedValues (key : AxisKey) (mats : List ProcessedMaterial) : List ℚ :=
  mats.filterMap (axisValue key)

/-- The extremum pass's `mins[key]`: `Math.min(...values)` over the defined
values when any exist, else the fallback `0`. -/
def axisMin (key : AxisKey) (mats : List ProcessedMaterial) : ℚ :=
  match definedValues key mats with
  | [] => 0
  | v :: vs => vs.foldl min v

/-- The extremum pass's `maxs[key]`: `Math.max(...values)` over the defined
values when any exist, else the fallback `1`. -/
def axisMax (key : AxisKey) (mats : List ProcessedMaterial) : ℚ :=
  match definedValues key mats with
  | [] => 1
  | v :: vs => vs.foldl max v

/-- Embeds the scoring pass of `normalizedData`: the score starts at the
neutral `50`; a defined raw value is min-max rescaled to `0–100` when the
range is positive (inverted for lower-is-better axes), pinned to `100`/`0`
by direction when the raw value equals the minimum of a zero-range axis,
and left at `50` otherwise. -/
def normalizedScore (mats : List ProcessedMaterial) (key : AxisKey)
    (mat : ProcessedMaterial) : ℚ :=
  match axisValue key mat with
  | none => 50
  | some rawValue =>
      let mn := axisMin key mats
      let mx := axisMax key mats
      let range := mx - mn
      if 0 < range then
        let t := (rawValue - mn) / range * 100
        if axisHigherIsBetter key then t else 100 - t
      else if rawValue = mn then
        if axisHigherIsBetter key then 100 else 0
      else 50

/-- The scoring rule as spec §4.3 words it, for comparison with
`normalizedScore`: missing value ⟶ `50`; `max > min` ⟶ min-max rescale
(inverted when lower is better); `max == min` ⟶ `100` when higher is
better else `0`. -/
def specScore (mats : List ProcessedMaterial) (key : AxisKey)
    (mat : ProcessedMaterial) : ℚ :=
  match axisValue key mat with
  | none => 50
  | some rawValue =>
      let mn := axisMin key mats
      let mx := axisMax key mats
      if mn < mx then
        let t := (rawValue - mn) / (mx - mn) * 100
        if axisHigherIsBetter key then t else 100 - t
      else if axisHigherIsBetter key then 100 else 0

/-- A concrete processed material used by the witnesses. -/
def sampleSteel : ProcessedMaterial :=
  ⟨⟨"Steel", some 7850, some 200000000000, some 250000000, some 400000000,
    some 79300000000, some (117/10000000)⟩, none, none⟩

/-- A second concrete processed material used by the witnesses. -/
def sampleAluminum : ProcessedMaterial :=
  ⟨⟨"Aluminum", some 2700, some 69000000000, some 95000000, some 110000000,
    some 26000000000, some (231/10000000)⟩, none, none⟩

end Normalizer

/-- Claim C9: the seed script's derived shear modulus is the guarded formula:
`E/(2·(1+ν))` when both inputs are present and `ν > −1`, `null` when either
input is missing or `ν ≤ −1`, and a supplied shear modulus takes precedence
over the computed value. -/
theorem calculateShearModulus_guarded (e v g : ℚ) :
    (-1 < v → Seed.calculateShearModulus (some e) (some v) = some (e / (2 * (1 + v)))) ∧
    (v ≤ -1 → Seed.calculateShearModulus (some e) (some v) = none) ∧
    (∀ x : Option ℚ, Seed.calculateShearModulus none x = none) ∧
    (∀ x : Option ℚ, Seed.calculateShearModulus x none = none) ∧
    (∀ c : Option ℚ, Seed.finalShearModulus (some g) c = some g) ∧
    Seed.finalShearModulus none (Seed.calculateShearModulus (some e) (some v)) =
      Seed.calculateShearModulus (some e) (some v) := by
  refine ⟨?_, ?_, ?_, ?_, ?_, rfl⟩
  · intro h
    simp [Seed.calculateShearModulus, not_le.mpr h]
  · intro h
    simp [Seed.calculateShearModulus, h]
  · intro x
    cases x <;> rfl
  · intro x
    cases x <;> rfl
  · intro c
    rfl

/-- Witness for C9 at `E = 200`, `ν = 3/10` (so `G = 1000/13`), at `ν = −2`
(not computable), and with a supplied value `77` taking precedence. -/
theorem calculateShearModulus_guarded_witness :
    Seed.calculateShearModulus (some 200) (some (3/10)) = some (1000/13) ∧
    Seed.calculateShearModulus (some 1) (some (-2)) = none ∧
    Seed.finalShearModulus (some 77) (some 5) = some 77 := by
  refine ⟨?_, ?_, ?_⟩
  · have h := (calculateShearModulus_guarded 200 (3/10) 77).1 (by norm_num)
    rw [h]
    norm_num
  · exact (calculateShearModulus_guarded 1 (-2) 77).2.1 (by norm_num)
  · exact (calculateShearModulus_guarded 1 (-2) 77).2.2.2.2.1 (some 5)

/-- Claim C1: at the triple `(siValue = 1000, density, g/cm³)` the materials
table's `convertValue` and the compare page's `calculateConvertedValue`
disagree: the former divides by the inverted factor `0.001` and produces
`1000000`, the latter follows the canonical §4.1 factor `1000` and produces
`1`; so the two code paths do not compute the same number and the materials
table does not use the canonical factor table. -/
theorem density_unit_paths_disagree :
    Units.MaterialsTable.convertValue (some 1000) .density "g/cm³" = some 1000000 ∧
    Units.ComparePage.calculateConvertedValue (some 1000) .density "g/cm³" = some 1 ∧
    Units.ComparePage.calculateConvertedValue (some 1000) .density "g/cm³" =
      (Units.specCanonicalFactor .density "g/cm³").map (fun f => 1000 / f) ∧
    Units.MaterialsTable.convertValue (some 1000) .density "g/cm³" ≠
      Units.ComparePage.calculateConvertedValue (some 1000) .density "g/cm³" := by
  have hm : Units.lookupUnit (Units.MaterialsTable.unitTable .density) "g/cm³" =
      some ⟨1/1000, 3⟩ := by rfl
  have hc : Units.lookupUnit (Units.ComparePage.unitTable .density) "g/cm³" =
      some ⟨1000, 3⟩ := by rfl
  have h1 : Units.MaterialsTable.convertValue (some 1000) .density "g/cm³" =
      some 1000000 := by
    simp only [Units.MaterialsTable.convertValue, hm, Option.map_some']
    norm_num
  have h2 : Units.ComparePage.calculateConvertedValue (some 1000) .density "g/cm³" =
      some 1 := by
    simp only [Units.ComparePage.calculateConvertedValue, hc, Option.map_some']
    norm_num
  have hspec : Units.specCanonicalFactor .density "g/cm³" = some 1000 := by rfl
  refine ⟨h1, h2, ?_, ?_⟩
  · rw [h2, hspec, Option.map_some']
    norm_num
  · rw [h1, h2]
    simp only [ne_eq, Option.some.injEq]
    norm_num

/-- Claim C6: continuity of the deflection solution at the load point: for
`0 ≤ a ≤ L` and `E·I·L ≠ 0`, the two branch formulas of the solver agree
exactly at `x = a` (over exact arithmetic). -/
theorem deflection_branch_continuity (L P E I a : ℝ) (ha0 : 0 ≤ a) (haL : a ≤ L)
    (h : E * I * L ≠ 0) :
    Beam.deflectionFormulaLeft L P E I a a = Beam.deflectionFormulaRight L P E I a a := by
  unfold Beam.deflectionFormulaLeft Beam.deflectionFormulaRight
  ring

/-- Witness for C6 at `L = 2, P = 1, E = 1, I = 1, a = 1`. -/
theorem deflection_branch_continuity_witness :
    (0 : ℝ) ≤ 1 ∧ (1 : ℝ) ≤ 2 ∧ (1 : ℝ) * 1 * 2 ≠ 0 ∧
    Beam.deflectionFormulaLeft 2 1 1 1 1 1 = Beam.deflectionFormulaRight 2 1 1 1 1 1 :=
  ⟨by norm_num, by norm_num, by norm_num,
   deflection_branch_continuity 2 1 1 1 1 (by norm_num) (by norm_num) (by norm_num)⟩

/-- Claim C7 counterexample: the claim quantifies over every `L` with
`E·I·L ≠ 0`, but at `L = −1, P = 1, E = 1, I = 1` the bounds check fires
(`a = −1/2 < 0`) and the solver returns `0`, not the closed form
`P·L³/(48·E·I) = −1/48`. -/
theorem center_load_negative_length_cex :
    (1 : ℝ) * 1 * (-1) ≠ 0 ∧
    Beam.calculateSimpleBeamPointLoadDeflection (-1) 1 1 1 (-1 / 2) (-1 / 2) ≠
      1 * (-1) ^ 3 / (48 * 1 * 1) := by
  constructor
  · norm_num
  · norm_num [Beam.calculateSimpleBeamPointLoadDeflection]

/-- Claim C7 (amended: the span must be positive — for `L < 0` the bounds
check returns `0` instead of the closed form): for every `L > 0`, `E ≠ 0`,
`I ≠ 0`, `deflectionAt(L,P,E,I,L/2,L/2) = P·L³/(48·E·I)` exactly, and the
deprecated `calculateBeamDeflection` returns the same value by delegating to
the center-load case. -/
theorem center_load_closed_form (L P E I : ℝ) (hL : 0 < L) (hE : E ≠ 0) (hI : I ≠ 0) :
    Beam.calculateSimpleBeamPointLoadDeflection L P E I (L / 2) (L / 2) =
      P * L ^ 3 / (48 * E * I) ∧
    Beam.calculateBeamDeflection L P E I = P * L ^ 3 / (48 * E * I) := by
  have hL' : L ≠ 0 := ne_of_gt hL
  have key : Beam.calculateSimpleBeamPointLoadDeflection L P E I (L / 2) (L / 2) =
      P * L ^ 3 / (48 * E * I) := by
    unfold Beam.calculateSimpleBeamPointLoadDeflection
    rw [if_neg (by push_neg; exact ⟨hE, hI, hL'⟩),
        if_neg (by push_neg; constructor <;> linarith),
        if_neg (by push_neg; constructor <;> linarith),
        if_pos le_rfl]
    unfold Beam.deflectionFormulaLeft
    field_simp
    ring
  exact ⟨key, key⟩

/-- Witness for C7 at `L = 2, P = 1000, E = 5, I = 7`. -/
theorem center_load_closed_form_witness :
    (0 : ℝ) < 2 ∧ (5 : ℝ) ≠ 0 ∧ (7 : ℝ) ≠ 0 ∧
    (Beam.calculateSimpleBeamPointLoadDeflection 2 1000 5 7 (2 / 2) (2 / 2) =
        1000 * 2 ^ 3 / (48 * 5 * 7) ∧
     Beam.calculateBeamDeflection 2 1000 5 7 = 1000 * 2 ^ 3 / (48 * 5 * 7)) :=
  ⟨by norm_num, by norm_num, by norm_num,
   center_load_closed_form 2 1000 5 7 (by norm_num) (by norm_num) (by norm_num)⟩

/-- Claim C2 counterexample: at `L = 1, P = 1, E = 1, I = 1, a = 1/2` and
`x = L + 0.001`, the solver does not fail with `InvalidInputError`: it
returns the plain number `0` through its ordinary return channel,
indistinguishable from a genuine zero deflection (the source only logs to
the console). -/
theorem out_of_range_returns_plain_zero :
    Beam.calculateSimpleBeamPointLoadDeflection 1 1 1 1 (1 / 2) (1 + 1 / 1000) = 0 := by
  norm_num [Beam.calculateSimpleBeamPointLoadDeflection]

/-- Claim C2 (amended: the violations are rejected but not via an explicit
error: `deflectionAt` with `a` or `x` outside `[0, L]` returns `0` after
only logging, and `maxDeflection` with `a` not strictly inside `(0, L)` —
when the degenerate guard does not fire first, i.e. `E, I, L, P` all
nonzero — returns `null` with no error identification). -/
theorem out_of_range_policy (L P E I a x : ℝ) :
    ((a < 0 ∨ a > L ∨ x < 0 ∨ x > L) →
      Beam.calculateSimpleBeamPointLoadDeflection L P E I a x = 0) ∧
    ((E ≠ 0 ∧ I ≠ 0 ∧ L ≠ 0 ∧ P ≠ 0 ∧ (a ≤ 0 ∨ a ≥ L)) →
      Beam.calculateSimpleBeamMaxDeflection L P E I a = none) := by
  constructor
  · intro h
    unfold Beam.calculateSimpleBeamPointLoadDeflection
    by_cases h1 : E = 0 ∨ I = 0 ∨ L = 0
    · rw [if_pos h1]
    · rw [if_neg h1]
      by_cases h2 : a < 0 ∨ a > L
      · rw [if_pos h2]
      · rw [if_neg h2]
        have h3 : x < 0 ∨ x > L := by
          rcases h with h | h | h | h
          · exact absurd (Or.inl h) h2
          · exact absurd (Or.inr h) h2
          · exact Or.inl h
          · exact Or.inr h
        rw [if_pos h3]
  · rintro ⟨hE, hI, hL, hP, ha⟩
    unfold Beam.calculateSimpleBeamMaxDeflection
    rw [if_neg (by push_neg; exact ⟨hE, hI, hL, hP⟩), if_pos ha]

/-- Witness for C2 (amended) at `a = −1` (load left of the left support). -/
theorem out_of_range_policy_witness :
    Beam.calculateSimpleBeamPointLoadDeflection 1 1 1 1 (-1) (1 / 2) = 0 ∧
    Beam.calculateSimpleBeamMaxDeflection 1 1 1 1 (-1) = none :=
  ⟨(out_of_range_policy 1 1 1 1 (-1) (1 / 2)).1 (Or.inl (by norm_num)),
   (out_of_range_policy 1 1 1 1 (-1) (1 / 2)).2
     ⟨by norm_num, by norm_num, by norm_num, by norm_num, Or.inl (by norm_num)⟩⟩

/-- Claim C8: the degenerate-beam silent-zero policy: for in-bounds `a`, `x`,
`deflectionAt` returns exactly `0` (without failing) whenever `E`, `I` or
`L` is zero, and `maxDeflection` returns exactly `{0, L/2}` (without
failing) whenever `P`, `E`, `I` or `L` is zero. -/
theorem degenerate_silent_zero_policy (L P E I a x : ℝ) :
    (0 ≤ a → a ≤ L → 0 ≤ x → x ≤ L → (E = 0 ∨ I = 0 ∨ L = 0) →
      Beam.calculateSimpleBeamPointLoadDeflection L P E I a x = 0) ∧
    ((P = 0 ∨ E = 0 ∨ I = 0 ∨ L = 0) →
      Beam.calculateSimpleBeamMaxDeflection L P E I a =
        some { maxDeflection := 0, location := L / 2 }) := by
  constructor
  · intro _ _ _ _ h
    unfold Beam.calculateSimpleBeamPointLoadDeflection
    rw [if_pos h]
  · intro h
    unfold Beam.calculateSimpleBeamMaxDeflection
    rw [if_pos (by tauto)]

/-- Witness for C8: zero stiffness (`E = 0`) and zero load (`P = 0`). -/
theorem degenerate_silent_zero_policy_witness :
    Beam.calculateSimpleBeamPointLoadDeflection 1 1 0 1 (1 / 2) (1 / 2) = 0 ∧
    Beam.calculateSimpleBeamMaxDeflection 1 0 1 1 (1 / 2) =
      some { maxDeflection := 0, location := 1 / 2 } :=
  ⟨(degenerate_silent_zero_policy 1 1 0 1 (1 / 2) (1 / 2)).1 (by norm_num) (by norm_num)
     (by norm_num) (by norm_num) (Or.inl rfl),
   (degenerate_silent_zero_policy 1 0 1 1 (1 / 2) 0).2 (Or.inl rfl)⟩

/-- Helper: for `0 < a < L` the zero-slope location computed by the solver is
strictly inside `(0, L)`, whichever segment is selected. -/
theorem xMax_mem (L a : ℝ) (ha0 : 0 < a) (haL : a < L) :
    0 < (if a ≤ L - a then Real.sqrt ((L * L - (L - a) * (L - a)) / 3)
         else L - Real.sqrt ((L * L - a * a) / 3)) ∧
    (if a ≤ L - a then Real.sqrt ((L * L - (L - a) * (L - a)) / 3)
     else L - Real.sqrt ((L * L - a * a) / 3)) < L := by
  have hL : 0 < L := ha0.trans haL
  split_ifs with hab
  · constructor
    · apply Real.sqrt_pos.mpr
      have h2 : 0 < a * (2 * L - a) := mul_pos ha0 (by linarith)
      nlinarith
    · rw [Real.sqrt_lt' hL]
      nlinarith [sq_nonneg (L - a)]
  · constructor
    · have hlt : Real.sqrt ((L * L - a * a) / 3) < L := by
        rw [Real.sqrt_lt' hL]
        nlinarith [sq_nonneg a, mul_pos ha0 ha0]
      linarith
    · have hpos : 0 < Real.sqrt ((L * L - a * a) / 3) := by
        apply Real.sqrt_pos.mpr
        have h2 : 0 < (L - a) * (L + a) := mul_pos (by linarith) (by linarith)
        nlinarith
      linarith

/-- Claim C3: for nonzero `E, I, L, P` and `0 < a < L`, `maxDeflection`
returns the location `x* = sqrt((L² − b²)/3)` (`b = L − a`) when `a ≤ b` and
`x* = L − sqrt((L² − a²)/3)` otherwise; this `x*` satisfies `0 < x* < L`,
and the returned magnitude equals `deflectionAt(L,P,E,I,a,x*)`. -/
theorem maxDeflection_location_spec (L P E I a : ℝ)
    (hE : E ≠ 0) (hI : I ≠ 0) (hL : L ≠ 0) (hP : P ≠ 0)
    (ha0 : 0 < a) (haL : a < L) :
    ∃ r : Beam.MaxDeflectionResult,
      Beam.calculateSimpleBeamMaxDeflection L P E I a = some r ∧
      r.location = (if a ≤ L - a then Real.sqrt ((L * L - (L - a) * (L - a)) / 3)
                    else L - Real.sqrt ((L * L - a * a) / 3)) ∧
      0 < r.location ∧ r.location < L ∧
      r.maxDeflection = Beam.calculateSimpleBeamPointLoadDeflection L P E I a r.location := by
  have hb := xMax_mem L a ha0 haL
  refine ⟨⟨Beam.calculateSimpleBeamPointLoadDeflection L P E I a
      (if a ≤ L - a then Real.sqrt ((L * L - (L - a) * (L - a)) / 3)
       else L - Real.sqrt ((L * L - a * a) / 3)),
      (if a ≤ L - a then Real.sqrt ((L * L - (L - a) * (L - a)) / 3)
       else L - Real.sqrt ((L * L - a * a) / 3))⟩, ?_, rfl, hb.1, hb.2, rfl⟩
  unfold Beam.calculateSimpleBeamMaxDeflection
  rw [if_neg (by push_neg; exact ⟨hE, hI, hL, hP⟩),
      if_neg (by push_neg; exact ⟨ha0, haL⟩)]

/-- Witness for C3 at the spec §8 example `L = 2, a = 1/2`. -/
theorem maxDeflection_location_spec_witness :
    (1 : ℝ) ≠ 0 ∧ (2 : ℝ) ≠ 0 ∧ (0 : ℝ) < 1 / 2 ∧ (1 / 2 : ℝ) < 2 ∧
    (∃ r : Beam.MaxDeflectionResult,
      Beam.calculateSimpleBeamMaxDeflection 2 1000 1 1 (1 / 2) = some r ∧
      r.location = (if (1 / 2 : ℝ) ≤ 2 - 1 / 2 then
                      Real.sqrt ((2 * 2 - (2 - 1 / 2) * (2 - 1 / 2)) / 3)
                    else 2 - Real.sqrt ((2 * 2 - 1 / 2 * (1 / 2)) / 3)) ∧
      0 < r.location ∧ r.location < 2 ∧
      r.maxDeflection = Beam.calculateSimpleBeamPointLoadDeflection 2 1000 1 1 (1 / 2)
        r.location) :=
  ⟨by norm_num, by norm_num, by norm_num, by norm_num,
   maxDeflection_location_spec 2 1000 1 1 (1 / 2) (by norm_num) (by norm_num)
     (by norm_num) (by norm_num) (by norm_num) (by norm_num)⟩

/-- Claim C10: under `maxDeflection`'s own preconditions the computed
location lies in `[0, L]`, so the validation branches of the inner
`deflectionAt` call (which would silently return `0`) are unreachable and
the returned magnitude is a genuine segment formula evaluated at the
location. -/
theorem maxDeflection_inner_validation_unreachable (L P E I a : ℝ)
    (hE : E ≠ 0) (hI : I ≠ 0) (hL : L ≠ 0) (hP : P ≠ 0)
    (ha0 : 0 < a) (haL : a < L) :
    ∃ r : Beam.MaxDeflectionResult,
      Beam.calculateSimpleBeamMaxDeflection L P E I a = some r ∧
      0 ≤ r.location ∧ r.location ≤ L ∧
      r.maxDeflection = (if r.location ≤ a then Beam.deflectionFormulaLeft L P E I a r.location
                         else Beam.deflectionFormulaRight L P E I a r.location) := by
  have hb := xMax_mem L a ha0 haL
  set X := (if a ≤ L - a then Real.sqrt ((L * L - (L - a) * (L - a)) / 3)
            else L - Real.sqrt ((L * L - a * a) / 3)) with hX
  refine ⟨⟨Beam.calculateSimpleBeamPointLoadDeflection L P E I a X, X⟩, ?_, le_of_lt hb.1,
      le_of_lt hb.2, ?_⟩
  · unfold Beam.calculateSimpleBeamMaxDeflection
    rw [if_neg (by push_neg; exact ⟨hE, hI, hL, hP⟩),
        if_neg (by push_neg; exact ⟨ha0, haL⟩)]
  · show Beam.calculateSimpleBeamPointLoadDeflection L P E I a X = _
    unfold Beam.calculateSimpleBeamPointLoadDeflection
    rw [if_neg (by push_neg; exact ⟨hE, hI, hL⟩),
        if_neg (by push_neg; exact ⟨le_of_lt ha0, le_of_lt haL⟩),
        if_neg (by push_neg; exact ⟨le_of_lt hb.1, le_of_lt hb.2⟩)]

/-- Witness for C10 at `L = 3, P = 10, E = 2, I = 5, a = 2` (the `a > b`
segment). -/
theorem maxDeflection_inner_validation_unreachable_witness :
    (2 : ℝ) ≠ 0 ∧ (5 : ℝ) ≠ 0 ∧ (3 : ℝ) ≠ 0 ∧ (10 : ℝ) ≠ 0 ∧ (0 : ℝ) < 2 ∧ (2 : ℝ) < 3 ∧
    (∃ r : Beam.MaxDeflectionResult,
      Beam.calculateSimpleBeamMaxDeflection 3 10 2 5 2 = some r ∧
      0 ≤ r.location ∧ r.location ≤ 3 ∧
      r.maxDeflection = (if r.location ≤ 2 then Beam.deflectionFormulaLeft 3 10 2 5 2 r.location
                         else Beam.deflectionFormulaRight 3 10 2 5 2 r.location)) :=
  ⟨by norm_num, by norm_num, by norm_num, by norm_num, by norm_num, by norm_num,
   maxDeflection_inner_validation_unreachable 3 10 2 5 2 (by norm_num) (by norm_num)
     (by norm_num) (by norm_num) (by norm_num) (by norm_num)⟩

/-- Helper: `foldl min` over a list is a lower bound of the seed and every
element (the `Math.min(...values)` characterization). -/
theorem foldl_min_le {α : Type*} [LinearOrder α] (l : List α) (a : α) :
    ∀ x ∈ a :: l, l.foldl min a ≤ x := by
  induction l generalizing a with
  | nil =>
    intro x hx
    rw [List.mem_singleton] at hx
    exact le_of_eq hx.symm
  | cons b t ih =>
    intro x hx
    simp only [List.foldl_cons]
    have hm : t.foldl min (min a b) ≤ min a b :=
      ih (min a b) (min a b) (List.mem_cons_self _ _)
    rcases List.mem_cons.mp hx with h | h
    · exact le_trans hm (by rw [h]; exact min_le_left a b)
    · rcases List.mem_cons.mp h with h | h
      · exact le_trans hm (by rw [h]; exact min_le_right a b)
      · exact ih (min a b) x (List.mem_cons_of_mem _ h)

/-- Helper: `foldl min` over a list returns the seed or one of the elements. -/
theorem foldl_min_mem {α : Type*} [LinearOrder α] (l : List α) (a : α) :
    l.foldl min a ∈ a :: l := by
  induction l generalizing a with
  | nil => exact List.mem_singleton.mpr rfl
  | cons b t ih =>
    simp only [List.foldl_cons]
    rcases List.mem_cons.mp (ih (min a b)) with h | h
    · rcases min_choice a b with hm | hm
      · rw [h, hm]
        exact List.mem_cons_self _ _
      · rw [h, hm]
        exact List.mem_cons_of_mem _ (List.mem_cons_self _ _)
    · exact List.mem_cons_of_mem _ (List.mem_cons_of_mem _ h)

/-- Helper: `foldl max` over a list is an upper bound of the seed and every
element (the `Math.max(...values)` characterization). -/
theorem le_foldl_max {α : Type*} [LinearOrder α] (l : List α) (a : α) :
    ∀ x ∈ a :: l, x ≤ l.foldl max a := by
  induction l generalizing a with
  | nil =>
    intro x hx
    rw [List.mem_singleton] at hx
    exact le_of_eq hx
  | cons b t ih =>
    intro x hx
    simp only [List.foldl_cons]
    have hm : max a b ≤ t.foldl max (max a b) :=
      ih (max a b) (max a b) (List.mem_cons_self _ _)
    rcases List.mem_cons.mp hx with h | h
    · exact le_trans (by rw [h]; exact le_max_left a b) hm
    · rcases List.mem_cons.mp h with h | h
      · exact le_trans (by rw [h]; exact le_max_right a b) hm
      · exact ih (max a b) x (List.mem_cons_of_mem _ h)

/-- Helper: `foldl max` over a list returns the seed or one of the elements. -/
theorem foldl_max_mem {α : Type*} [LinearOrder α] (l : List α) (a : α) :
    l.foldl max a ∈ a :: l := by
  induction l generalizing a with
  | nil => exact List.mem_singleton.mpr rfl
  | cons b t ih =>
    simp only [List.foldl_cons]
    rcases List.mem_cons.mp (ih (max a b)) with h | h
    · rcases max_choice a b with hm | hm
      · rw [h, hm]
        exact List.mem_cons_self _ _
      · rw [h, hm]
        exact List.mem_cons_of_mem _ (List.mem_cons_self _ _)
    · exact List.mem_cons_of_mem _ (List.mem_cons_of_mem _ h)

/-- Helper: the extremum pass's `mins[key]` bounds every defined value of the
axis from below. -/
theorem axisMin_le_of_mem {key : Normalizer.AxisKey}
    {mats : List Normalizer.ProcessedMaterial} {x : ℚ}
    (hx : x ∈ Normalizer.definedValues key mats) :
    Normalizer.axisMin key mats ≤ x := by
  unfold Normalizer.axisMin
  cases hdv : Normalizer.definedValues key mats with
  | nil =>
    rw [hdv] at hx
    cases hx
  | cons v vs =>
    rw [hdv] at hx
    exact foldl_min_le vs v x hx

/-- Helper: the extremum pass's `maxs[key]` bounds every defined value of the
axis from above. -/
theorem le_axisMax_of_mem {key : Normalizer.AxisKey}
    {mats : List Normalizer.ProcessedMaterial} {x : ℚ}
    (hx : x ∈ Normalizer.definedValues key mats) :
    x ≤ Normalizer.axisMax key mats := by
  unfold Normalizer.axisMax
  cases hdv : Normalizer.definedValues key mats with
  | nil =>
    rw [hdv] at hx
    cases hx
  | cons v vs =>
    rw [hdv] at hx
    exact le_foldl_max vs v x hx

/-- Helper: the axis minimum only depends on the multiset of materials. -/
theorem axisMin_eq_of_perm {key : Normalizer.AxisKey}
    {m1 m2 : List Normalizer.ProcessedMaterial} (h : m1.Perm m2) :
    Normalizer.axisMin key m1 = Normalizer.axisMin key m2 := by
  have hdv : (Normalizer.definedValues key m1).Perm (Normalizer.definedValues key m2) :=
    h.filterMap _
  unfold Normalizer.axisMin
  cases h1 : Normalizer.definedValues key m1 with
  | nil =>
    rw [h1] at hdv
    rw [hdv.symm.eq_nil]
  | cons v vs =>
    cases h2 : Normalizer.definedValues key m2 with
    | nil =>
      rw [h1, h2] at hdv
      exact absurd hdv.eq_nil (List.cons_ne_nil v vs)
    | cons w ws =>
      rw [h1, h2] at hdv
      exact le_antisymm
        (foldl_min_le vs v _ (hdv.mem_iff.mpr (foldl_min_mem ws w)))
        (foldl_min_le ws w _ (hdv.symm.mem_iff.mpr (foldl_min_mem vs v)))

/-- Helper: the axis maximum only depends on the multiset of materials. -/
theorem axisMax_eq_of_perm {key : Normalizer.AxisKey}
    {m1 m2 : List Normalizer.ProcessedMaterial} (h : m1.Perm m2) :
    Normalizer.axisMax key m1 = Normalizer.axisMax key m2 := by
  have hdv : (Normalizer.definedValues key m1).Perm (Normalizer.definedValues key m2) :=
    h.filterMap _
  unfold Normalizer.axisMax
  cases h1 : Normalizer.definedValues key m1 with
  | nil =>
    rw [h1] at hdv
    rw [hdv.symm.eq_nil]
  | cons v vs =>
    cases h2 : Normalizer.definedValues key m2 with
    | nil =>
      rw [h1, h2] at hdv
      exact absurd hdv.eq_nil (List.cons_ne_nil v vs)
    | cons w ws =>
      rw [h1, h2] at hdv
      exact le_antisymm
        (le_foldl_max ws w _ (hdv.mem_iff.mp (foldl_max_mem vs v)))
        (le_foldl_max vs v _ (hdv.symm.mem_iff.mp (foldl_max_mem ws w)))

/-- Helper: the scoring pass on a missing value. -/
theorem normalizedScore_none (mats : List Normalizer.ProcessedMaterial)
    (key : Normalizer.AxisKey) (mat : Normalizer.ProcessedMaterial)
    (hv : Normalizer.axisValue key mat = none) :
    Normalizer.normalizedScore mats key mat = 50 := by
  unfold Normalizer.normalizedScore
  rw [hv]

/-- Helper: the spec scoring rule on a missing value. -/
theorem specScore_none (mats : List Normalizer.ProcessedMaterial)
    (key : Normalizer.AxisKey) (mat : Normalizer.ProcessedMaterial)
    (hv : Normalizer.axisValue key mat = none) :
    Normalizer.specScore mats key mat = 50 := by
  unfold Normalizer.specScore
  rw [hv]

/-- Helper: the scoring pass on a defined value, with the local bindings of
the source reduced away. -/
theorem normalizedScore_some (mats : List Normalizer.ProcessedMaterial)
    (key : Normalizer.AxisKey) (mat : Normalizer.ProcessedMaterial) (v : ℚ)
    (hv : Normalizer.axisValue key mat = some v) :
    Normalizer.normalizedScore mats key mat =
      if 0 < Normalizer.axisMax key mats - Normalizer.axisMin key mats then
        (if Normalizer.axisHigherIsBetter key then
           (v - Normalizer.axisMin key mats) /
             (Normalizer.axisMax key mats - Normalizer.axisMin key mats) * 100
         else 100 - (v - Normalizer.axisMin key mats) /
             (Normalizer.axisMax key mats - Normalizer.axisMin key mats) * 100)
      else if v = Normalizer.axisMin key mats then
        (if Normalizer.axisHigherIsBetter key then 100 else 0)
      else 50 := by
  unfold Normalizer.normalizedScore
  rw [hv]

/-- Helper: the spec scoring rule on a defined value, with the local bindings
reduced away. -/
theorem specScore_some (mats : List Normalizer.ProcessedMaterial)
    (key : Normalizer.AxisKey) (mat : Normalizer.ProcessedMaterial) (v : ℚ)
    (hv : Normalizer.axisValue key mat = some v) :
    Normalizer.specScore mats key mat =
      if Normalizer.axisMin key mats < Normalizer.axisMax key mats then
        (if Normalizer.axisHigherIsBetter key then
           (v - Normalizer.axisMin key mats) /
             (Normalizer.axisMax key mats - Normalizer.axisMin key mats) * 100
         else 100 - (v - Normalizer.axisMin key mats) /
             (Normalizer.axisMax key mats - Normalizer.axisMin key mats) * 100)
      else if Normalizer.axisHigherIsBetter key then 100
      else 0 := by
  unfold Normalizer.specScore
  rw [hv]

/-- Claim C4: the scoring pass of the radar chart equals the spec §4.3
reference rule for every scored material of the set, and every produced
score lies in `[0, 100]` (the embedded normalizer is a total function, so
it never fails). -/
theorem normalizedScore_matches_spec (mats : List Normalizer.ProcessedMaterial)
    (key : Normalizer.AxisKey) (mat : Normalizer.ProcessedMaterial)
    (hmem : mat ∈ mats) :
    Normalizer.normalizedScore mats key mat = Normalizer.specScore mats key mat ∧
    0 ≤ Normalizer.normalizedScore mats key mat ∧
    Normalizer.normalizedScore mats key mat ≤ 100 := by
  cases hval : Normalizer.axisValue key mat with
  | none =>
    rw [normalizedScore_none mats key mat hval, specScore_none mats key mat hval]
    norm_num
  | some v =>
    rw [normalizedScore_some mats key mat v hval, specScore_some mats key mat v hval]
    have hvm : v ∈ Normalizer.definedValues key mats :=
      List.mem_filterMap.mpr ⟨mat, hmem, hval⟩
    have hmn : Normalizer.axisMin key mats ≤ v := axisMin_le_of_mem hvm
    have hmx : v ≤ Normalizer.axisMax key mats := le_axisMax_of_mem hvm
    by_cases hr : 0 < Normalizer.axisMax key mats - Normalizer.axisMin key mats
    · rw [if_pos hr, if_pos (show Normalizer.axisMin key mats <
          Normalizer.axisMax key mats by linarith)]
      have h0 : 0 ≤ (v - Normalizer.axisMin key mats) /
          (Normalizer.axisMax key mats - Normalizer.axisMin key mats) * 100 :=
        mul_nonneg (div_nonneg (by linarith) (le_of_lt hr)) (by norm_num)
      have h100 : (v - Normalizer.axisMin key mats) /
          (Normalizer.axisMax key mats - Normalizer.axisMin key mats) * 100 ≤ 100 := by
        have hd1 : (v - Normalizer.axisMin key mats) /
            (Normalizer.axisMax key mats - Normalizer.axisMin key mats) ≤ 1 :=
          (div_le_one hr).mpr (by linarith)
        nlinarith
      refine ⟨rfl, ?_, ?_⟩ <;> split_ifs <;> linarith
    · have hveq : v = Normalizer.axisMin key mats := by
        have hba : Normalizer.axisMax key mats ≤ Normalizer.axisMin key mats := by linarith
        exact le_antisymm (by linarith) hmn
      rw [if_neg hr, if_neg (show ¬ Normalizer.axisMin key mats <
            Normalizer.axisMax key mats by linarith), if_pos hveq]
      refine ⟨rfl, ?_, ?_⟩ <;> split_ifs <;> norm_num

/-- Witness for C4: the steel sample scored inside the two-element sample
set on the density axis. -/
theorem normalizedScore_matches_spec_witness :
    Normalizer.normalizedScore [Normalizer.sampleSteel, Normalizer.sampleAluminum]
        .density Normalizer.sampleSteel =
      Normalizer.specScore [Normalizer.sampleSteel, Normalizer.sampleAluminum]
        .density Normalizer.sampleSteel ∧
    0 ≤ Normalizer.normalizedScore [Normalizer.sampleSteel, Normalizer.sampleAluminum]
        .density Normalizer.sampleSteel ∧
    Normalizer.normalizedScore [Normalizer.sampleSteel, Normalizer.sampleAluminum]
        .density Normalizer.sampleSteel ≤ 100 :=
  normalizedScore_matches_spec _ .density Normalizer.sampleSteel
    (List.mem_cons_self _ _)

/-- Claim C5: the extrema used in scoring bound every defined value over the
entire material set, and every material's score on every axis is invariant
under any permutation of the input list (no streaming normalization
effect). -/
theorem normalizedScore_perm_invariant (mats1 mats2 : List Normalizer.ProcessedMaterial)
    (hperm : mats1.Perm mats2) (key : Normalizer.AxisKey)
    (mat : Normalizer.ProcessedMaterial) :
    (∀ x ∈ Normalizer.definedValues key mats1,
        Normalizer.axisMin key mats1 ≤ x ∧ x ≤ Normalizer.axisMax key mats1) ∧
    Normalizer.normalizedScore mats1 key mat = Normalizer.normalizedScore mats2 key mat := by
  constructor
  · intro x hx
    exact ⟨axisMin_le_of_mem hx, le_axisMax_of_mem hx⟩
  · unfold Normalizer.normalizedScore
    rw [axisMin_eq_of_perm hperm, axisMax_eq_of_perm hperm]

/-- Witness for C5: swapping the two sample materials does not change the
steel sample's density score. -/
theorem normalizedScore_perm_invariant_witness :
    (∀ x ∈ Normalizer.definedValues .density
        [Normalizer.sampleSteel, Normalizer.sampleAluminum],
        Normalizer.axisMin .density [Normalizer.sampleSteel, Normalizer.sampleAluminum] ≤ x ∧
        x ≤ Normalizer.axisMax .density [Normalizer.sampleSteel, Normalizer.sampleAluminum]) ∧
    Normalizer.normalizedScore [Normalizer.sampleSteel, Normalizer.sampleAluminum]
        .density Normalizer.sampleSteel =
      Normalizer.normalizedScore [Normalizer.sampleAluminum, Normalizer.sampleSteel]
        .density Normalizer.sampleSteel :=
  normalizedScore_perm_invariant _ _
    (List.Perm.swap Normalizer.sampleAluminum Normalizer.sampleSteel [])
    .density Normalizer.sampleSteel
